import Mathlib

set_option maxHeartbeats 1000000

/-!
Verification development for the docker-network-ovn plugin (main.go, ovn.go, ovs.go).

The OVN Northbound database is modelled as an explicit state (logical switches and
logical switch ports); driver operations are translated from the Go source into pure
functions over that state.  Operations submitted to the database are reified as an
`OVNOp` transaction list so that batching behaviour is visible.  Teardown paths, whose
claims quantify over arbitrary client failures, are modelled against explicit
failure-outcome environments instead of the state.  Named UUIDs assigned by the client
are kept as the row identity after commit; the server-side renaming is applied
consistently on both the row and every reference to it, so object identity is preserved.
-/

deriving instance DecidableEq for Except

namespace OVN

/-- Characters of a string truncated to the first n; models Go slicing s[:n] for the
ASCII identifiers the driver receives. -/
def strTake (s : String) (n : Nat) : String := String.mk (s.data.take n)

/-- Membership of one character in a string; models strings.Contains for a
single-character pattern. -/
def strContainsChar (s : String) (c : Char) : Bool := s.data.contains c

/-- Splitter on a character predicate, accumulator-based. -/
def splitByAux (p : Char → Bool) : List Char → List Char → List (List Char)
  | [], acc => [acc.reverse]
  | x :: xs, acc =>
    if p x then acc.reverse :: splitByAux p xs [] else splitByAux p xs (x :: acc)

def splitBy (p : Char → Bool) (l : List Char) : List (List Char) := splitByAux p l []

def splitOnChar (l : List Char) (c : Char) : List (List Char) := splitBy (fun x => x == c) l

def isAsciiSpace (c : Char) : Bool :=
  c == ' ' || c == '\t' || c == '\n' || c == '\r' || c == '\x0b' || c == '\x0c'

/-- Models strings.Fields on the ASCII whitespace the driver produces. -/
def asciiFields (s : String) : List String :=
  ((splitBy isAsciiSpace s.data).filter (fun l => !l.isEmpty)).map String.mk

/-- Decimal value of a nonempty digit string. -/
def charsToNat? (l : List Char) : Option Nat :=
  if l.isEmpty then none
  else if l.all (fun c => c.isDigit) then
    some (l.foldl (fun n c => 10 * n + (c.toNat - 48)) 0)
  else none

/-- Decimal IPv4 field as Go net.ParseCIDR accepts it: one to three digits, value at
most 255, no leading zero. -/
def decOctet? (l : List Char) : Option Nat :=
  if l.length == 0 || 3 < l.length then none
  else if 1 < l.length && l.head? == some '0' then none
  else
    match charsToNat? l with
    | some n => if n ≤ 255 then some n else none
    | none => none

def parseIPv4Chars (l : List Char) : Option (Nat × Nat × Nat × Nat) :=
  match (splitOnChar l '.').map decOctet? with
  | [some a, some b, some c, some d] => some (a, b, c, d)
  | _ => none

def ipv4Render (a b c d : Nat) : String :=
  toString a ++ "." ++ toString b ++ "." ++ toString c ++ "." ++ toString d

/-- Mask length of a CIDR suffix as Go accepts it: decimal digits, at most 32. -/
def maskBits? (l : List Char) : Option Nat :=
  match charsToNat? l with
  | some n => if n ≤ 32 then some n else none
  | none => none

/-- Models Go net.ParseCIDR (restricted to the IPv4 addresses the driver handles)
followed by ip.String(): the canonical bare address of a valid a.b.c.d/len string. -/
def parseCIDRAddr (s : String) : Option String :=
  match splitOnChar s.data '/' with
  | [ipPart, maskPart] =>
    match parseIPv4Chars ipPart, maskBits? maskPart with
    | some (a, b, c, d), some _ => some (ipv4Render a b c d)
    | _, _ => none
  | _ => none

/-! ## OVN Northbound data model (ovn.go) -/

/-- Logical_Switch row: _uuid, name, ports, other_config. -/
structure LogicalSwitch where
  uuid : String
  name : String
  ports : List String
  otherConfig : List (String × String)
deriving DecidableEq

/-- Logical_Switch_Port row: _uuid, name, addresses, port_security, enabled, type,
options, external_ids. -/
structure LogicalSwitchPort where
  uuid : String
  name : String
  addresses : List String
  portSecurity : List String
  enabled : Option Bool
  type : String
  options : List (String × String)
  externalIDs : List (String × String)
deriving DecidableEq

/-- Go map read: the value stored for the key, empty string when absent. -/
def mapGet (m : List (String × String)) (k : String) : String :=
  match m.find? (fun p => p.1 == k) with
  | some p => p.2
  | none => ""

def mapHasKey (m : List (String × String)) (k : String) : Bool :=
  (m.find? (fun p => p.1 == k)).isSome

/-- OVSDB map insert mutation: adds pairs whose keys are not already present. -/
def mapInsert (m kvs : List (String × String)) : List (String × String) :=
  m ++ kvs.filter (fun p => !(mapHasKey m p.1))

/-- OVSDB map delete mutation with a map argument: removes pairs matching key and value. -/
def mapDeletePairs (m kvs : List (String × String)) : List (String × String) :=
  m.filter (fun p => (kvs.find? (fun q => q.1 == p.1 && q.2 == p.2)).isNone)

/-- OVSDB set insert mutation: adds values not already present. -/
def setInsert (s vs : List String) : List String :=
  s ++ vs.filter (fun v => !(s.contains v))

/-- OVSDB set delete mutation: removes the given values. -/
def setDelete (s vs : List String) : List String :=
  s.filter (fun v => !(vs.contains v))

inductive Mutator where
  | insert
  | delete
deriving DecidableEq

/-- Operations the driver submits to the OVN Northbound database, reified. -/
inductive OVNOp where
  | createLS (ls : LogicalSwitch)
  | deleteLS (uuid : String)
  | createLSP (lsp : LogicalSwitchPort)
  | deleteLSP (uuid : String)
  | mutateLSPorts (lsUUID : String) (m : Mutator) (portUUIDs : List String)
  | mutateLSOtherConfig (lsUUID : String) (m : Mutator) (kvs : List (String × String))
deriving DecidableEq

abbrev Txn := List OVNOp

/-- OVN Northbound database contents monitored by the client. -/
structure OVNState where
  switches : List LogicalSwitch
  lsps : List LogicalSwitchPort
deriving DecidableEq

def mutatePortsField (m : Mutator) (cur vs : List String) : List String :=
  match m with
  | .insert => setInsert cur vs
  | .delete => setDelete cur vs

def mutateMapField (m : Mutator) (cur kvs : List (String × String)) :
    List (String × String) :=
  match m with
  | .insert => mapInsert cur kvs
  | .delete => mapDeletePairs cur kvs

def applyOp (db : OVNState) : OVNOp → OVNState
  | .createLS ls => ⟨db.switches ++ [ls], db.lsps⟩
  | .deleteLS u => ⟨db.switches.filter (fun ls => !(ls.uuid == u)), db.lsps⟩
  | .createLSP lsp => ⟨db.switches, db.lsps ++ [lsp]⟩
  | .deleteLSP u => ⟨db.switches, db.lsps.filter (fun p => !(p.uuid == u))⟩
  | .mutateLSPorts u m vs =>
    ⟨db.switches.map (fun ls =>
      if ls.uuid == u then ⟨ls.uuid, ls.name, mutatePortsField m ls.ports vs, ls.otherConfig⟩
      else ls), db.lsps⟩
  | .mutateLSOtherConfig u m kvs =>
    ⟨db.switches.map (fun ls =>
      if ls.uuid == u then ⟨ls.uuid, ls.name, ls.ports, mutateMapField m ls.otherConfig kvs⟩
      else ls), db.lsps⟩

/-- Atomic application of one transaction batch. -/
def applyTxn (db : OVNState) (t : Txn) : OVNState := t.foldl applyOp db

/-! ## Cache lookups (ovn.go findLogicalSwitch / findLogicalSwitchPort /
findLogicalSwitchBySubnet / findLogicalSwitchPortByIP) -/

def findLogicalSwitch (db : OVNState) (name : String) : Option LogicalSwitch :=
  (db.switches.filter (fun ls => ls.name == name)).head?

def findLogicalSwitchPort (db : OVNState) (name : String) : Option LogicalSwitchPort :=
  (db.lsps.filter (fun p => p.name == name)).head?

def findLogicalSwitchBySubnet (db : OVNState) (subnet : String) : Option LogicalSwitch :=
  (db.switches.filter (fun ls => mapGet ls.otherConfig "docker:subnet" == subnet)).head?

def logicalSwitchPortAddressHasIP (address ipAddr : String) : Bool :=
  address == ipAddr || (asciiFields address).any (fun part => part == ipAddr)

def findLogicalSwitchPortByIP (db : OVNState) (switchName ipAddr : String) :
    Option LogicalSwitchPort :=
  match findLogicalSwitch db switchName with
  | none => none
  | some ls =>
    (db.lsps.filter (fun p =>
      ls.ports.contains p.uuid &&
        p.addresses.any (fun a => logicalSwitchPortAddressHasIP a ipAddr))).head?

/-! ## Naming (main.go) -/

def switchNameOf (networkID : String) : String := "ls-" ++ strTake networkID 12

def portNameOf (endpointID networkID : String) : String :=
  "lsp-" ++ strTake endpointID 12 ++ "-ls-" ++ strTake networkID 12

def localVethNameOf (endpointID : String) : String := "veth" ++ strTake endpointID 7

def endpointOtherConfigKey (endpointID suffix : String) : String :=
  "docker:endpoint:" ++ endpointID ++ ":" ++ suffix

/-! ## generateMAC (main.go) -/

def hexDigitChar (n : Nat) : Char :=
  if n < 10 then Char.ofNat (48 + n) else Char.ofNat (87 + n)

/-- Two lowercase hex digits; models fmt %02x on a byte. -/
def hex2 (n : Nat) : String := String.mk [hexDigitChar ((n / 16) % 16), hexDigitChar (n % 16)]

def joinColon : List String → String
  | [] => ""
  | [x] => x
  | x :: xs => x ++ ":" ++ joinColon xs

/-- UTF-8 bytes of one character. -/
def utf8Bytes (c : Char) : List Nat :=
  if c.toNat < 128 then [c.toNat]
  else if c.toNat < 2048 then [192 + c.toNat / 64, 128 + c.toNat % 64]
  else if c.toNat < 65536 then [224 + c.toNat / 4096, 128 + (c.toNat / 64) % 64, 128 + c.toNat % 64]
  else [240 + c.toNat / 262144, 128 + (c.toNat / 4096) % 64, 128 + (c.toNat / 64) % 64,
        128 + c.toNat % 64]

def utf8Encode : List Char → List Nat
  | [] => []
  | c :: cs => utf8Bytes c ++ utf8Encode cs

/-- Byte sequence of a Go string (Go indexes strings by byte). -/
def strBytes (s : String) : List Nat := utf8Encode s.data

/-- Translates generateMAC from main.go, operating on the byte sequence of the
endpoint identifier: first octet 0x02, the next five octets overwritten by the first
(up to) five bytes of the identifier, remaining octets zero. -/
def generateMAC (endpointBytes : List Nat) : String :=
  let macOctets : List Nat := 2 :: (endpointBytes ++ List.replicate 5 0).take 5
  joinColon (macOctets.map hex2)

/-! ## CreateNetwork (main.go).  Client transport failures and per-operation
transaction errors are absent in this state model; the claims settled against it
concern validation, batching and state, not transport. -/

/-- Logical switch row created by CreateNetwork; the server-assigned row identity is
determinized from the network identifier. -/
def newNetworkSwitch (networkID subnet gateway : String) : LogicalSwitch :=
  ⟨"uuid-ls-" ++ networkID, switchNameOf networkID, [],
   [("docker:network", networkID), ("docker:subnet", subnet), ("docker:gateway", gateway)]⟩

def CreateNetwork (db : OVNState) (networkID subnet gateway : String) :
    Except String Unit × OVNState × List Txn :=
  if subnet == "" then (.error "subnet not specified", db, [])
  else
    match findLogicalSwitchBySubnet db subnet with
    | some existingLS =>
      (.error ("subnet " ++ subnet ++ " already in use by logical switch " ++ existingLS.name),
       db, [])
    | none =>
      let gwRes : Except String String :=
        if gateway != "" && strContainsChar gateway '/' then
          match parseCIDRAddr gateway with
          | some ip => .ok ip
          | none => .error "invalid gateway address"
        else .ok gateway
      match gwRes with
      | .error e => (.error e, db, [])
      | .ok gw =>
        let txn : Txn := [OVNOp.createLS (newNetworkSwitch networkID subnet gw)]
        (.ok (), applyTxn db txn, [txn])

/-! ## CreateEndpoint and endpoint metadata (main.go) -/

def storeEndpointMetadata (db : OVNState) (lsName endpointID macAddr ipAddr : String) :
    Option String × OVNState × List Txn :=
  match findLogicalSwitch db lsName with
  | none => (some ("logical switch " ++ lsName ++ " not found"), db, [])
  | some ls =>
    let kvs := [(endpointOtherConfigKey endpointID "mac", macAddr),
                (endpointOtherConfigKey endpointID "ip", ipAddr)]
    let txn : Txn := [OVNOp.mutateLSOtherConfig ls.uuid Mutator.insert kvs]
    (none, applyTxn db txn, [txn])

def CreateEndpoint (db : OVNState) (endpointID networkID reqMac reqIP : String) :
    Except String String × OVNState × List Txn :=
  let switchName := switchNameOf networkID
  match findLogicalSwitch db switchName with
  | none => (.error ("network " ++ networkID ++ " not found"), db, [])
  | some _ =>
    let macAddr := if reqMac == "" then generateMAC (strBytes endpointID) else reqMac
    let ipRes : Except String String :=
      if strContainsChar reqIP '/' then
        match parseCIDRAddr reqIP with
        | some ip => .ok ip
        | none => .error "invalid IP address"
      else .ok reqIP
    match ipRes with
    | .error e => (.error e, db, [])
    | .ok ipAddr =>
      match storeEndpointMetadata db switchName endpointID macAddr ipAddr with
      | (some e, db1, t) => (.error e, db1, t)
      | (none, db1, t) => (.ok macAddr, db1, t)

def getEndpointMetadata (db : OVNState) (lsName endpointID : String) :
    Except String (String × String × String) :=
  match findLogicalSwitch db lsName with
  | none => .error ("logical switch " ++ lsName ++ " not found")
  | some ls =>
    if mapGet ls.otherConfig (endpointOtherConfigKey endpointID "mac") == ""
        || mapGet ls.otherConfig (endpointOtherConfigKey endpointID "ip") == "" then
      .error ("endpoint metadata not found in logical switch " ++ lsName)
    else
      .ok (mapGet ls.otherConfig (endpointOtherConfigKey endpointID "mac"),
           mapGet ls.otherConfig (endpointOtherConfigKey endpointID "ip"),
           mapGet ls.otherConfig "docker:gateway")

/-! ## Join (main.go) -/

/-- Models strings.ReplaceAll(portName, "-", "_"): the pattern is one character, so
the replacement is a character map. -/
def cleanPortName (portName : String) : String :=
  String.mk (portName.data.map (fun c => if c == '-' then '_' else c))

def joinNamedUUID (endpointID networkID : String) : String :=
  "lsp_named_" ++ cleanPortName (portNameOf endpointID networkID)

/-- Logical switch port assembled by Join: addresses "mac ip", port security mirroring
addresses, enabled true, external ids tagging endpoint and network, client-assigned
named UUID. -/
def joinLSP (endpointID networkID macAddr ipAddr : String) : LogicalSwitchPort :=
  let addressStr := macAddr ++ " " ++ ipAddr
  ⟨joinNamedUUID endpointID networkID, portNameOf endpointID networkID,
   [addressStr], [addressStr], some true, "", [],
   [("docker:endpoint", endpointID), ("docker:network", networkID)]⟩

/-- Single batch Join submits: port create followed by the switch ports insert-mutate
referencing the port by its named UUID. -/
def joinTxn (endpointID networkID macAddr ipAddr lsUUID : String) : Txn :=
  [OVNOp.createLSP (joinLSP endpointID networkID macAddr ipAddr),
   OVNOp.mutateLSPorts lsUUID Mutator.insert [joinNamedUUID endpointID networkID]]

structure JoinResponse where
  srcName : String
  dstBase : String
  gateway : String
deriving DecidableEq

/-- Outcomes of the host wiring commands Join issues, in program order: ip link add,
ip link set address, ip link set up, OVS AddPortToBridge. -/
structure HostEnv where
  createVethOk : Bool
  setMacOk : Bool
  linkUpOk : Bool
  addPortOk : Bool
deriving DecidableEq

inductive HostCmd where
  | linkAdd (host container : String)
  | setMac (dev mac : String)
  | linkUp (dev : String)
  | linkDel (dev : String)
  | ovsAddPort (bridge port iface ifaceID : String)
  | ethtoolTxOff (dev : String)
deriving DecidableEq

/-- Host wiring phase of Join: veth pair creation, container MAC, host side up, OVS
bridge attach, checksum offload off.  Each failure after pair creation deletes the
pair before the error is returned.  Returns the container-side interface name and the
trace of issued commands. -/
def joinHostWiring (bridge : String) (henv : HostEnv) (endpointID macAddr portName : String) :
    Except String String × List HostCmd :=
  let localVeth := localVethNameOf endpointID
  let containerVeth := localVeth ++ "_c"
  if !henv.createVethOk then
    (.error "failed to create veth pair", [HostCmd.linkAdd localVeth containerVeth])
  else if !henv.setMacOk then
    (.error "failed to set MAC address",
     [HostCmd.linkAdd localVeth containerVeth, HostCmd.setMac containerVeth macAddr,
      HostCmd.linkDel localVeth])
  else if !henv.linkUpOk then
    (.error "failed to bring up host veth",
     [HostCmd.linkAdd localVeth containerVeth, HostCmd.setMac containerVeth macAddr,
      HostCmd.linkUp localVeth, HostCmd.linkDel localVeth])
  else if !henv.addPortOk then
    (.error "failed to add veth to OVS",
     [HostCmd.linkAdd localVeth containerVeth, HostCmd.setMac containerVeth macAddr,
      HostCmd.linkUp localVeth, HostCmd.ovsAddPort bridge localVeth localVeth portName,
      HostCmd.linkDel localVeth])
  else
    (.ok containerVeth,
     [HostCmd.linkAdd localVeth containerVeth, HostCmd.setMac containerVeth macAddr,
      HostCmd.linkUp localVeth, HostCmd.ovsAddPort bridge localVeth localVeth portName,
      HostCmd.ethtoolTxOff localVeth, HostCmd.ethtoolTxOff containerVeth])

structure JoinResult where
  res : Except String JoinResponse
  db : OVNState
  txns : List Txn
  host : List HostCmd

def Join (bridge : String) (db : OVNState) (henv : HostEnv) (endpointID networkID : String) :
    JoinResult :=
  match getEndpointMetadata db (switchNameOf networkID) endpointID with
  | .error e => ⟨.error e, db, [], []⟩
  | .ok (macAddr, ipAddr, gateway) =>
    match findLogicalSwitchPortByIP db (switchNameOf networkID) ipAddr with
    | some existingLSP =>
      ⟨.error ("IP address " ++ ipAddr ++ " already in use on logical switch "
               ++ switchNameOf networkID ++ " by port " ++ existingLSP.name), db, [], []⟩
    | none =>
      match findLogicalSwitch db (switchNameOf networkID) with
      | none =>
        ⟨.error ("logical switch " ++ switchNameOf networkID ++ " not found"), db, [], []⟩
      | some ls =>
        match findLogicalSwitchPort db (portNameOf endpointID networkID) with
        | some _ =>
          ⟨.error ("logical switch port " ++ portNameOf endpointID networkID
                   ++ " already exists"), db, [], []⟩
        | none =>
          let txn := joinTxn endpointID networkID macAddr ipAddr ls.uuid
          let db1 := applyTxn db txn
          let hw := joinHostWiring bridge henv endpointID macAddr
            (portNameOf endpointID networkID)
          let res : Except String JoinResponse :=
            match hw.1 with
            | .error e => .error e
            | .ok containerVeth => .ok ⟨containerVeth, "eth", gateway⟩
          ⟨res, db1, [txn], hw.2⟩

/-! ## DeleteNetwork (main.go, ovn.go DeleteLogicalSwitch) -/

def DeleteLogicalSwitch (db : OVNState) (name : String) :
    Option String × OVNState × List Txn :=
  match findLogicalSwitch db name with
  | none => (none, db, [])
  | some ls =>
    let txn : Txn := [OVNOp.deleteLS ls.uuid]
    (none, applyTxn db txn, [txn])

def DeleteNetwork (db : OVNState) (networkID : String) :
    Option String × OVNState × List Txn :=
  DeleteLogicalSwitch db (switchNameOf networkID)

/-! ## Teardown paths (DeleteEndpoint, Leave).  Their claims quantify over arbitrary
sub-step failures, including client transport errors, so each external call outcome is
an explicit environment value. -/

/-- Outcome of a cache lookup call: client error, no row, or a row. -/
inductive Lookup (α : Type) where
  | err (msg : String)
  | notFound
  | found (a : α)
deriving DecidableEq

def Lookup.isErr {α : Type} : Lookup α → Bool
  | .err _ => true
  | _ => false

/-- Outcomes of the calls deleteEndpointMetadata makes, in program order. -/
structure DelMetaEnv where
  lsLookup : Lookup LogicalSwitch
  mutateOpOk : Bool
  transact : Except String (List String)
deriving DecidableEq

/-- Translates deleteEndpointMetadata from main.go.  Every failure after the switch
lookup is logged as a warning and swallowed; a lookup client error is returned to the
caller.  Result: returned error, warnings logged. -/
def deleteEndpointMetadata (env : DelMetaEnv) (lsName endpointID : String) :
    Option String × List String :=
  match env.lsLookup with
  | .err e => (some e, [])
  | .notFound =>
    (none, ["logical switch " ++ lsName ++ " not found while deleting endpoint metadata"])
  | .found _ls =>
    if !env.mutateOpOk then
      (none, ["failed to create mutate operation for endpoint metadata delete"])
    else
      match env.transact with
      | .error e => (none, ["failed to delete endpoint metadata: " ++ e])
      | .ok results =>
        match results.head? with
        | some r =>
          if r != "" then (none, ["failed to delete endpoint metadata: " ++ r])
          else (none, [])
        | none => (none, [])

def DeleteEndpoint (env : DelMetaEnv) (networkID endpointID : String) : Option String :=
  (deleteEndpointMetadata env (switchNameOf networkID) endpointID).1

/-! ## Leave (main.go deleteLogicalSwitchPort, ovs.go RemovePort) -/

/-- Outcomes of the calls deleteLogicalSwitchPort makes, in program order. -/
structure DLSPEnv where
  lspLookup : Lookup LogicalSwitchPort
  lsLookup : Lookup LogicalSwitch
  mutateOpOk : Bool
  deleteOpOk : Bool
  transact : Except String (List String)
deriving DecidableEq

/-- Translates deleteLogicalSwitchPort from main.go: the switch ports delete-mutate is
best-effort (built only when the switch is found and the operation builds), the port
delete and the transaction are mandatory.  Returns the first error and the operations
batched. -/
def deleteLogicalSwitchPort (env : DLSPEnv) : Option String × List OVNOp :=
  match env.lspLookup with
  | .err e => (some e, [])
  | .notFound => (none, [])
  | .found lsp =>
    let ops : List OVNOp :=
      match env.lsLookup with
      | .found ls =>
        if env.mutateOpOk then [OVNOp.mutateLSPorts ls.uuid Mutator.delete [lsp.uuid]] else []
      | _ => []
    if !env.deleteOpOk then (some "failed to create delete operation for LSP", ops)
    else
      let ops := ops ++ [OVNOp.deleteLSP lsp.uuid]
      match env.transact with
      | .error e => (some e, ops)
      | .ok results =>
        match results.find? (fun r => r != "") with
        | some r => (some ("transaction error: " ++ r), ops)
        | none => (none, ops)

/-! OVS database rows (ovs.go), as far as RemovePort consults them. -/

structure Bridge where
  uuid : String
  name : String
  ports : List String
deriving DecidableEq

structure Port where
  uuid : String
  name : String
  interfaces : List String
deriving DecidableEq

structure Interface where
  uuid : String
  name : String
  type : String
  externalIDs : List (String × String)
deriving DecidableEq

/-- Outcomes of the calls RemovePort makes, in program order. -/
structure RemovePortEnv where
  portLookup : Lookup Port
  bridgeLookup : Lookup Bridge
  bridgeMutateOpOk : Bool
  bridgeTransact : Except String (List String)
  portDeleteOpOk : Bool
  portTransact : Except String (List String)
  ifaceLookup : Lookup Interface
  ifaceDeleteOpOk : Bool
  ifaceTransact : Except String (List String)
deriving DecidableEq

/-- Translates RemovePort from ovs.go.  A missing port is success; bridge detach and
interface deletion are best-effort (warnings only); the port lookup, port delete
operation and port delete transaction surface their failures. -/
def RemovePort (env : RemovePortEnv) : Option String :=
  match env.portLookup with
  | .err e => (some ("failed to list ports: " ++ e))
  | .notFound => none
  | .found _port =>
    match env.bridgeLookup with
    | .err e => some e
    | _ =>
      if !env.portDeleteOpOk then some "failed to create delete operation for port"
      else
        match env.portTransact with
        | .error e => some ("failed to remove port: " ++ e)
        | .ok results =>
          match results.head? with
          | some r => if r != "" then some ("failed to remove port: " ++ r) else none
          | none => none

structure LeaveEnv where
  dlsp : DLSPEnv
  removePort : RemovePortEnv
  linkDelOk : Bool
deriving DecidableEq

structure LeaveResult where
  err : Option String
  warnings : List String
deriving DecidableEq

/-- Translates Leave from main.go: logical switch port deletion, OVS port removal and
veth deletion are attempted in order; each failure is logged as a warning and the call
returns success. -/
def Leave (env : LeaveEnv) (endpointID networkID : String) : LeaveResult :=
  let portName := portNameOf endpointID networkID
  let localVeth := localVethNameOf endpointID
  let w1 : List String :=
    match (deleteLogicalSwitchPort env.dlsp).1 with
    | some e => ["failed to delete LSP " ++ portName ++ ": " ++ e]
    | none => []
  let w2 : List String :=
    match RemovePort env.removePort with
    | some e => ["failed to remove OVS port from OVS: " ++ e]
    | none => []
  let w3 : List String :=
    if env.linkDelOk then [] else ["failed to delete veth pair " ++ localVeth]
  ⟨none, w1 ++ w2 ++ w3⟩

/-! ## Concrete fixtures used by the scenario theorem and by witnesses. -/

def epA : String := "ep1bbbbbbbbbbbb"

def netA : String := "net1aaaaaaaaaaaa"

def emptyLS : LogicalSwitch := ⟨"", "", [], []⟩

def emptyLSP : LogicalSwitchPort := ⟨"", "", [], [], none, "", [], []⟩

/-- Switch of network netA carrying stored metadata for endpoint epA. -/
def fixtureLS : LogicalSwitch :=
  ⟨"uuid-1", switchNameOf netA, [],
   [("docker:network", netA), ("docker:subnet", "172.16.0.0/16"),
    ("docker:gateway", "172.16.0.1"),
    (endpointOtherConfigKey epA "mac", "02:65:70:31:62:62"),
    (endpointOtherConfigKey epA "ip", "172.16.0.5")]⟩

def fixtureDB : OVNState := ⟨[fixtureLS], []⟩

/-- Switch of network netA without metadata for endpoint epA. -/
def fixtureLSNoMeta : LogicalSwitch :=
  ⟨"uuid-1", switchNameOf netA, [], [("docker:gateway", "172.16.0.1")]⟩

def fixtureDBNoMeta : OVNState := ⟨[fixtureLSNoMeta], []⟩

/-- Port on the netA switch already carrying the IP that epA has stored. -/
def fixtureConflictPort : LogicalSwitchPort :=
  ⟨"uuid-p0", "lsp-other", ["02:aa:bb:cc:dd:ee 172.16.0.5"],
   ["02:aa:bb:cc:dd:ee 172.16.0.5"], some true, "", [], []⟩

def fixtureDBConflict : OVNState :=
  ⟨[⟨"uuid-1", switchNameOf netA, ["uuid-p0"], fixtureLS.otherConfig⟩], [fixtureConflictPort]⟩

/-- Database where the port name Join would derive already exists. -/
def fixtureDBPortExists : OVNState :=
  ⟨[fixtureLS], [⟨"uuid-p1", portNameOf epA netA, [], [], none, "", [], []⟩]⟩

/-- Environment in which every Leave sub-step fails. -/
def leaveAllFail : LeaveEnv :=
  ⟨⟨Lookup.err "nb down", Lookup.notFound, false, false, Except.error "nb down"⟩,
   ⟨Lookup.err "ovs down", Lookup.notFound, false, Except.error "ovs down", false,
    Except.error "ovs down", Lookup.notFound, false, Except.error "ovs down"⟩,
   false⟩

/-! Scenario pipeline of the spec (section 8): CreateNetwork with CIDR gateway,
CreateEndpoint with CIDR address and generated MAC, then Join. -/

def scenarioStep1 : Except String Unit × OVNState × List Txn :=
  CreateNetwork ⟨[], []⟩ netA "172.16.0.0/16" "172.16.0.1/16"

def scenarioDB1 : OVNState := scenarioStep1.2.1

def scenarioStep2 : Except String String × OVNState × List Txn :=
  CreateEndpoint scenarioDB1 epA netA "" "172.16.0.5/16"

def scenarioDB2 : OVNState := scenarioStep2.2.1

def scenarioJoin : JoinResult := Join "br-int" scenarioDB2 ⟨true, true, true, true⟩ epA netA

/-! ## Helper lemmas -/

theorem take_take_of_le {α : Type} (k n : Nat) (h : k ≤ n) (l : List α) :
    (l.take n).take k = l.take k := by
  rw [List.take_take]
  congr 1
  omega

theorem take_five_pad (bs : List Nat) :
    (bs ++ List.replicate 5 0).take 5 = bs.take 5 ++ List.replicate (5 - (bs.take 5).length) 0 := by
  rw [List.take_append_eq_append_take, List.take_replicate, List.length_take]
  congr 2
  omega

theorem generateMAC_eq_of_take_five (bs1 bs2 : List Nat) (h : bs1.take 5 = bs2.take 5) :
    generateMAC bs1 = generateMAC bs2 := by
  unfold generateMAC
  rw [take_five_pad, take_five_pad, h]

theorem utf8Bytes_length_pos (c : Char) : 0 < (utf8Bytes c).length := by
  unfold utf8Bytes
  split
  · simp
  · split
    · simp
    · split <;> simp

theorem utf8Encode_take_of_take (l1 : List Char) :
    ∀ (n : Nat) (l2 : List Char), l1.take n = l2.take n →
      (utf8Encode l1).take n = (utf8Encode l2).take n := by
  induction l1 with
  | nil =>
    intro n l2 h
    cases n with
    | zero => simp
    | succ n =>
      cases l2 with
      | nil => rfl
      | cons d ds => simp at h
  | cons c cs ih =>
    intro n l2 h
    cases n with
    | zero => simp
    | succ n =>
      cases l2 with
      | nil => simp at h
      | cons d ds =>
        rw [List.take_succ_cons, List.take_succ_cons] at h
        obtain ⟨rfl, htail⟩ := List.cons.injEq .. ▸ h
        show (utf8Bytes c ++ utf8Encode cs).take (n + 1)
           = (utf8Bytes c ++ utf8Encode ds).take (n + 1)
        rw [List.take_append_eq_append_take, List.take_append_eq_append_take]
        congr 1
        apply ih
        have hk : n + 1 - (utf8Bytes c).length ≤ n := by
          have := utf8Bytes_length_pos c
          omega
        calc cs.take (n + 1 - (utf8Bytes c).length)
            = (cs.take n).take (n + 1 - (utf8Bytes c).length) := (take_take_of_le _ _ hk _).symm
          _ = (ds.take n).take (n + 1 - (utf8Bytes c).length) := by rw [htail]
          _ = ds.take (n + 1 - (utf8Bytes c).length) := take_take_of_le _ _ hk _

/-! ## Claim theorems -/

/-- C9: the derived port name is a pure deterministic function of the endpoint and
network identifiers truncated to their 12-character prefixes, embedding the network
name derived from the truncated network identifier; two invocations with identical
prefixes yield identical names, so two endpoint identifiers sharing a 12-character
prefix collide on the same network. -/
theorem portName_prefix_collision (e1 n1 e2 n2 : String)
    (hl1 : 12 ≤ e1.length) (hl2 : 12 ≤ e2.length)
    (hl3 : 12 ≤ n1.length) (hl4 : 12 ≤ n2.length)
    (he : strTake e1 12 = strTake e2 12) (hn : strTake n1 12 = strTake n2 12) :
    portNameOf e1 n1 = portNameOf e2 n2
    ∧ portNameOf e1 n1 = "lsp-" ++ strTake e1 12 ++ "-" ++ switchNameOf n1 := by
  constructor
  · unfold portNameOf
    rw [he, hn]
  · have h : ("-ls-" : String) ++ strTake n1 12 = "-" ++ ("ls-" ++ strTake n1 12) := rfl
    unfold portNameOf switchNameOf
    simp only [String.append_assoc]
    rw [h]

theorem portName_prefix_collision_witness :
    (12 ≤ ("ep1bbbbbbbbbXXXX" : String).length ∧ 12 ≤ ("ep1bbbbbbbbbYYYY" : String).length
      ∧ 12 ≤ ("net1aaaaaaaazzzz" : String).length ∧ 12 ≤ ("net1aaaaaaaawwww" : String).length
      ∧ strTake "ep1bbbbbbbbbXXXX" 12 = strTake "ep1bbbbbbbbbYYYY" 12
      ∧ strTake "net1aaaaaaaazzzz" 12 = strTake "net1aaaaaaaawwww" 12)
    ∧ portNameOf "ep1bbbbbbbbbXXXX" "net1aaaaaaaazzzz"
        = portNameOf "ep1bbbbbbbbbYYYY" "net1aaaaaaaawwww" :=
  ⟨⟨by decide, by decide, by decide, by decide, by decide, by decide⟩,
   (portName_prefix_collision "ep1bbbbbbbbbXXXX" "net1aaaaaaaazzzz" "ep1bbbbbbbbbYYYY"
      "net1aaaaaaaawwww" (by decide) (by decide) (by decide) (by decide)
      (by decide) (by decide)).1⟩

/-- C10: the MAC generated from an endpoint identifier always has first octet 0x02 and
its next five octets are the first five bytes of the identifier; consequently the MAC
depends only on the first five bytes, so any two identifiers sharing a 5-character
prefix receive the identical address. -/
theorem generateMAC_spec :
    (∀ (b1 b2 b3 b4 b5 : Nat) (rest : List Nat),
       generateMAC (b1 :: b2 :: b3 :: b4 :: b5 :: rest) =
         "02:" ++ hex2 b1 ++ ":" ++ hex2 b2 ++ ":" ++ hex2 b3 ++ ":" ++ hex2 b4 ++ ":" ++ hex2 b5)
    ∧ (∀ bs1 bs2 : List Nat, bs1.take 5 = bs2.take 5 → generateMAC bs1 = generateMAC bs2)
    ∧ (∀ s1 s2 : String, s1.data.take 5 = s2.data.take 5 →
         generateMAC (strBytes s1) = generateMAC (strBytes s2)) := by
  refine ⟨fun b1 b2 b3 b4 b5 rest => rfl, generateMAC_eq_of_take_five, fun s1 s2 h => ?_⟩
  exact generateMAC_eq_of_take_five _ _ (utf8Encode_take_of_take s1.data 5 s2.data h)

theorem generateMAC_spec_witness :
    ("abcdeXYZ" : String).data.take 5 = ("abcde123" : String).data.take 5
    ∧ generateMAC (strBytes "abcdeXYZ") = generateMAC (strBytes "abcde123")
    ∧ generateMAC (strBytes "abcde123") = "02:61:62:63:64:65" :=
  ⟨by decide, generateMAC_spec.2.2 "abcdeXYZ" "abcde123" (by decide), by decide⟩

/-- C5: Leave returns success to the caller for every combination of sub-step
outcomes; it attempts logical switch port deletion, OVS port removal and veth pair
deletion in order, logging failures as warnings, and in the environment where all
three sub-steps fail it logs three warnings and still succeeds. -/
theorem leave_always_succeeds :
    (∀ (env : LeaveEnv) (endpointID networkID : String),
       (Leave env endpointID networkID).err = none)
    ∧ (Leave leaveAllFail epA netA).warnings.length = 3
    ∧ (Leave leaveAllFail epA netA).err = none :=
  ⟨fun _ _ _ => rfl, by decide, rfl⟩

/-- C2 counterexample: DeleteEndpoint propagates a logical-switch lookup client error
to the caller instead of swallowing it, so the operation does not always return
success. -/
theorem deleteEndpoint_lookup_error_counterexample :
    DeleteEndpoint ⟨Lookup.err "connection refused", true, Except.ok []⟩ netA epA
      = some "connection refused" := rfl

/-- C2 (amended): DeleteEndpoint returns success whenever the logical-switch lookup
itself does not fail with a client error; switch absence, mutate-operation
construction failure, transaction failure and a per-operation error result are all
swallowed. -/
theorem deleteEndpoint_swallows_nonlookup_failures (env : DelMetaEnv)
    (networkID endpointID : String) (h : env.lsLookup.isErr = false) :
    DeleteEndpoint env networkID endpointID = none := by
  obtain ⟨lsl, mok, tr⟩ := env
  unfold DeleteEndpoint deleteEndpointMetadata
  cases lsl with
  | err e => simp [Lookup.isErr] at h
  | notFound => rfl
  | found ls =>
    cases mok with
    | false => rfl
    | true =>
      cases tr with
      | error e => rfl
      | ok results =>
        cases results with
        | nil => rfl
        | cons r rs =>
          by_cases hr : (r != "") = true
          · simp [hr]
          · simp [hr]

theorem deleteEndpoint_swallows_nonlookup_failures_witness :
    (⟨Lookup.notFound, false, Except.error "nb down"⟩ : DelMetaEnv).lsLookup.isErr = false
    ∧ DeleteEndpoint ⟨Lookup.notFound, false, Except.error "nb down"⟩ netA epA = none :=
  ⟨by decide,
   deleteEndpoint_swallows_nonlookup_failures ⟨Lookup.notFound, false, Except.error "nb down"⟩
     netA epA (by decide)⟩

/-! ## DeleteNetwork idempotence (C7) -/

theorem deleteLogicalSwitch_not_found (db : OVNState) (name : String)
    (h : findLogicalSwitch db name = none) : DeleteLogicalSwitch db name = (none, db, []) := by
  unfold DeleteLogicalSwitch
  rw [h]

theorem filter_eq_singleton_of_head (sws : List LogicalSwitch) (p : LogicalSwitch → Bool)
    (ls : LogicalSwitch) (hh : (sws.filter p).head? = some ls)
    (hlen : (sws.filter p).length ≤ 1) : sws.filter p = [ls] := by
  cases hfl : sws.filter p with
  | nil => rw [hfl] at hh; exact Option.noConfusion hh
  | cons a t =>
    rw [hfl] at hh hlen
    have ha : a = ls := by simpa using hh
    have ht : t = [] := by
      simp only [List.length_cons] at hlen
      have : t.length = 0 := by omega
      exact List.length_eq_zero.mp this
    rw [ha, ht]

theorem filter_after_filter_nil (sws : List LogicalSwitch)
    (p q : LogicalSwitch → Bool) (ls : LogicalSwitch)
    (h : sws.filter p = [ls]) (hq : q ls = false) :
    (sws.filter q).filter p = [] := by
  rw [List.eq_nil_iff_forall_not_mem]
  intro x hx
  obtain ⟨hx1, hx2⟩ := List.mem_filter.mp hx
  obtain ⟨hx3, hx4⟩ := List.mem_filter.mp hx1
  have hmem : x ∈ sws.filter p := List.mem_filter.mpr ⟨hx3, hx2⟩
  rw [h, List.mem_singleton] at hmem
  subst hmem
  rw [hq] at hx4
  exact Bool.noConfusion hx4

/-- C7: DeleteNetwork is idempotent: on an id whose derived switch is absent it
returns success and issues no transaction; it always returns success; and a second
call right after a first one leaves the state of the first call unchanged and issues
no transaction.  The hypothesis states that at most one switch carries the derived
name, which CreateNetwork guarantees for distinct 12-character network id prefixes. -/
theorem deleteNetwork_idempotent (db : OVNState) (networkID : String)
    (huniq : (db.switches.filter (fun ls => ls.name == switchNameOf networkID)).length ≤ 1) :
    (findLogicalSwitch db (switchNameOf networkID) = none →
       DeleteNetwork db networkID = (none, db, []))
    ∧ (DeleteNetwork db networkID).1 = none
    ∧ DeleteNetwork (DeleteNetwork db networkID).2.1 networkID
        = (none, (DeleteNetwork db networkID).2.1, []) := by
  cases hf : findLogicalSwitch db (switchNameOf networkID) with
  | none =>
    have h1 : DeleteNetwork db networkID = (none, db, []) :=
      deleteLogicalSwitch_not_found db _ hf
    rw [h1]
    exact ⟨fun _ => rfl, rfl, deleteLogicalSwitch_not_found db _ hf⟩
  | some ls =>
    have h1 : DeleteNetwork db networkID
        = (none, applyTxn db [OVNOp.deleteLS ls.uuid], [[OVNOp.deleteLS ls.uuid]]) := by
      show DeleteLogicalSwitch db (switchNameOf networkID) = _
      unfold DeleteLogicalSwitch
      rw [hf]
    have hsing : db.switches.filter (fun s => s.name == switchNameOf networkID) = [ls] :=
      filter_eq_singleton_of_head db.switches _ ls hf huniq
    have hq : (!(ls.uuid == ls.uuid)) = false := by simp
    have hnil := filter_after_filter_nil db.switches
      (fun s => s.name == switchNameOf networkID) (fun s => !(s.uuid == ls.uuid)) ls hsing hq
    have hf2 : findLogicalSwitch (applyTxn db [OVNOp.deleteLS ls.uuid])
        (switchNameOf networkID) = none := List.head?_eq_none_iff.mpr hnil
    refine ⟨fun h => Option.noConfusion h, by rw [h1], ?_⟩
    rw [h1]
    exact deleteLogicalSwitch_not_found _ _ hf2

theorem deleteNetwork_idempotent_witness :
    (fixtureDB.switches.filter (fun ls => ls.name == switchNameOf netA)).length ≤ 1
    ∧ (DeleteNetwork fixtureDB netA).1 = none
    ∧ DeleteNetwork (DeleteNetwork fixtureDB netA).2.1 netA
        = (none, (DeleteNetwork fixtureDB netA).2.1, []) :=
  ⟨by decide, (deleteNetwork_idempotent fixtureDB netA (by decide)).2.1,
   (deleteNetwork_idempotent fixtureDB netA (by decide)).2.2⟩

/-! ## CreateNetwork subnet conflict (C6) -/

theorem createNetwork_conflict_after (db : OVNState) (id1 s gw id2 gw2 : String)
    (hs : (s == "") = false)
    (hfind : findLogicalSwitchBySubnet db s = none) :
    CreateNetwork (applyTxn db [OVNOp.createLS (newNetworkSwitch id1 s gw)]) id2 s gw2
      = (.error ("subnet " ++ s ++ " already in use by logical switch " ++ switchNameOf id1),
         applyTxn db [OVNOp.createLS (newNetworkSwitch id1 s gw)], [])
    ∧ ((applyTxn db [OVNOp.createLS (newNetworkSwitch id1 s gw)]).switches.filter
        (fun ls => mapGet ls.otherConfig "docker:subnet" == s)).length = 1 := by
  have hfind' : db.switches.filter (fun ls => mapGet ls.otherConfig "docker:subnet" == s) = [] :=
    List.head?_eq_none_iff.mp hfind
  have hmatch : (mapGet (newNetworkSwitch id1 s gw).otherConfig "docker:subnet" == s)
      = true := by
    show (s == s) = true
    simp
  have hfilter : (db.switches ++ [newNetworkSwitch id1 s gw]).filter
      (fun ls => mapGet ls.otherConfig "docker:subnet" == s) = [newNetworkSwitch id1 s gw] := by
    rw [List.filter_append, hfind', List.nil_append,
        @List.filter_cons_of_pos _ (fun ls => mapGet ls.otherConfig "docker:subnet" == s)
          (newNetworkSwitch id1 s gw) [] hmatch,
        List.filter_nil]
  have hfind2 : findLogicalSwitchBySubnet
      (applyTxn db [OVNOp.createLS (newNetworkSwitch id1 s gw)]) s
      = some (newNetworkSwitch id1 s gw) := by
    show ((db.switches ++ [newNetworkSwitch id1 s gw]).filter _).head? = _
    rw [hfilter]
    rfl
  constructor
  · unfold CreateNetwork
    rw [if_neg (by simp [hs]), hfind2]
    rfl
  · show ((db.switches ++ [newNetworkSwitch id1 s gw]).filter _).length = 1
    rw [hfilter]
    rfl

/-- C6: after a network is created with subnet S, a second CreateNetwork requesting S
fails with a conflict error naming the owning logical switch, issues no transaction,
leaves the state unchanged, and exactly one logical switch holds S. -/
theorem createNetwork_subnet_conflict (db db1 : OVNState) (id1 s gw1 id2 gw2 : String)
    (t1 : List Txn) (h1 : CreateNetwork db id1 s gw1 = (.ok (), db1, t1)) :
    CreateNetwork db1 id2 s gw2
      = (.error ("subnet " ++ s ++ " already in use by logical switch " ++ switchNameOf id1),
         db1, [])
    ∧ (db1.switches.filter (fun ls => mapGet ls.otherConfig "docker:subnet" == s)).length
        = 1 := by
  unfold CreateNetwork at h1
  by_cases hs : (s == "") = true
  · rw [if_pos hs] at h1
    exact absurd h1 (by simp)
  rw [if_neg hs] at h1
  have hs' : (s == "") = false := by
    cases hsv : (s == "") with
    | false => rfl
    | true => exact absurd hsv hs
  cases hfind : findLogicalSwitchBySubnet db s with
  | some ls =>
    rw [hfind] at h1
    exact absurd h1 (by simp)
  | none =>
    rw [hfind] at h1
    by_cases hg : (gw1 != "" && strContainsChar gw1 '/') = true
    · rw [if_pos hg] at h1
      cases hp : parseCIDRAddr gw1 with
      | none =>
        rw [hp] at h1
        exact absurd h1 (by simp)
      | some ip =>
        rw [hp] at h1
        simp only [Prod.mk.injEq, Except.ok.injEq] at h1
        obtain ⟨-, hdb, -⟩ := h1
        rw [← hdb]
        exact createNetwork_conflict_after db id1 s ip id2 gw2 hs' hfind
    · rw [if_neg hg] at h1
      simp only [Prod.mk.injEq, Except.ok.injEq] at h1
      obtain ⟨-, hdb, -⟩ := h1
      rw [← hdb]
      exact createNetwork_conflict_after db id1 s gw1 id2 gw2 hs' hfind

theorem createNetwork_subnet_conflict_witness :
    CreateNetwork (⟨[], []⟩ : OVNState) netA "172.16.0.0/16" "172.16.0.1/16"
      = (.ok (), scenarioDB1, scenarioStep1.2.2)
    ∧ CreateNetwork scenarioDB1 "net2cccccccccccc" "172.16.0.0/16" ""
      = (.error ("subnet " ++ "172.16.0.0/16" ++ " already in use by logical switch "
                 ++ switchNameOf netA), scenarioDB1, []) :=
  ⟨by decide,
   (createNetwork_subnet_conflict ⟨[], []⟩ scenarioDB1 netA "172.16.0.0/16" "172.16.0.1/16"
      "net2cccccccccccc" "" scenarioStep1.2.2 (by decide)).1⟩

/-! ## Join (C1, C3, C4) -/

/-- Reduction of Join once every precondition check passes: the database phase commits
exactly the batch joinTxn and the host wiring phase runs. -/
theorem join_reduction (bridge : String) (db : OVNState) (henv : HostEnv)
    (ep net mac ip gw : String) (ls : LogicalSwitch)
    (hmeta : getEndpointMetadata db (switchNameOf net) ep = .ok (mac, ip, gw))
    (hip : findLogicalSwitchPortByIP db (switchNameOf net) ip = none)
    (hls : findLogicalSwitch db (switchNameOf net) = some ls)
    (hport : findLogicalSwitchPort db (portNameOf ep net) = none) :
    Join bridge db henv ep net
      = ⟨match (joinHostWiring bridge henv ep mac (portNameOf ep net)).1 with
         | .error e => .error e
         | .ok cv => .ok ⟨cv, "eth", gw⟩,
         applyTxn db (joinTxn ep net mac ip ls.uuid),
         [joinTxn ep net mac ip ls.uuid],
         (joinHostWiring bridge henv ep mac (portNameOf ep net)).2⟩ := by
  unfold Join
  simp only [hmeta, hip, hls, hport]

/-- C1: when Join reaches the database phase it submits the port create and the switch
ports insert-mutate together in one Transact batch, the mutate referring to the
not-yet-committed port through the client-assigned named UUID that the create carries,
and the committed state is exactly the atomic application of that batch. -/
theorem join_atomic_batch (bridge : String) (db : OVNState) (henv : HostEnv)
    (ep net mac ip gw : String) (ls : LogicalSwitch)
    (hmeta : getEndpointMetadata db (switchNameOf net) ep = .ok (mac, ip, gw))
    (hip : findLogicalSwitchPortByIP db (switchNameOf net) ip = none)
    (hls : findLogicalSwitch db (switchNameOf net) = some ls)
    (hport : findLogicalSwitchPort db (portNameOf ep net) = none) :
    (Join bridge db henv ep net).txns
      = [[OVNOp.createLSP (joinLSP ep net mac ip),
          OVNOp.mutateLSPorts ls.uuid Mutator.insert [joinNamedUUID ep net]]]
    ∧ (joinLSP ep net mac ip).uuid = joinNamedUUID ep net
    ∧ (Join bridge db henv ep net).db = applyTxn db (joinTxn ep net mac ip ls.uuid) := by
  rw [join_reduction bridge db henv ep net mac ip gw ls hmeta hip hls hport]
  exact ⟨rfl, rfl, rfl⟩

theorem join_atomic_batch_witness :
    getEndpointMetadata fixtureDB (switchNameOf netA) epA
      = .ok ("02:65:70:31:62:62", "172.16.0.5", "172.16.0.1")
    ∧ findLogicalSwitchPortByIP fixtureDB (switchNameOf netA) "172.16.0.5" = none
    ∧ findLogicalSwitch fixtureDB (switchNameOf netA) = some fixtureLS
    ∧ findLogicalSwitchPort fixtureDB (portNameOf epA netA) = none
    ∧ (Join "br-int" fixtureDB ⟨true, true, true, true⟩ epA netA).txns
      = [[OVNOp.createLSP (joinLSP epA netA "02:65:70:31:62:62" "172.16.0.5"),
          OVNOp.mutateLSPorts fixtureLS.uuid Mutator.insert [joinNamedUUID epA netA]]] :=
  ⟨by decide, by decide, by decide, by decide,
   (join_atomic_batch "br-int" fixtureDB ⟨true, true, true, true⟩ epA netA
      "02:65:70:31:62:62" "172.16.0.5" "172.16.0.1" fixtureLS (by decide) (by decide)
      (by decide) (by decide)).1⟩

/-- C3: each Join precondition failure aborts before any mutation: absent MAC/IP
metadata yields the metadata-not-found error, an IP already carried by a port of the
switch yields the in-use conflict naming that port, and an existing derived port name
yields the already-exists conflict; in every case the state is unchanged, no
transaction is issued and no host command runs. -/
theorem join_checks_block_mutation (bridge : String) (db : OVNState) (henv : HostEnv)
    (ep net : String) :
    (∀ ls, findLogicalSwitch db (switchNameOf net) = some ls →
       (mapGet ls.otherConfig (endpointOtherConfigKey ep "mac") = ""
         ∨ mapGet ls.otherConfig (endpointOtherConfigKey ep "ip") = "") →
       Join bridge db henv ep net
         = ⟨.error ("endpoint metadata not found in logical switch " ++ switchNameOf net),
            db, [], []⟩)
    ∧ (∀ mac ip gw p, getEndpointMetadata db (switchNameOf net) ep = .ok (mac, ip, gw) →
       findLogicalSwitchPortByIP db (switchNameOf net) ip = some p →
       Join bridge db henv ep net
         = ⟨.error ("IP address " ++ ip ++ " already in use on logical switch "
                    ++ switchNameOf net ++ " by port " ++ p.name), db, [], []⟩)
    ∧ (∀ mac ip gw ls q, getEndpointMetadata db (switchNameOf net) ep = .ok (mac, ip, gw) →
       findLogicalSwitchPortByIP db (switchNameOf net) ip = none →
       findLogicalSwitch db (switchNameOf net) = some ls →
       findLogicalSwitchPort db (portNameOf ep net) = some q →
       Join bridge db henv ep net
         = ⟨.error ("logical switch port " ++ portNameOf ep net ++ " already exists"),
            db, [], []⟩) := by
  refine ⟨?_, ?_, ?_⟩
  · intro ls hls hkey
    have hcond : (mapGet ls.otherConfig (endpointOtherConfigKey ep "mac") == ""
        || mapGet ls.otherConfig (endpointOtherConfigKey ep "ip") == "") = true := by
      rcases hkey with h | h <;> simp [h]
    have hmeta : getEndpointMetadata db (switchNameOf net) ep
        = .error ("endpoint metadata not found in logical switch " ++ switchNameOf net) := by
      unfold getEndpointMetadata
      simp only [hls, hcond, if_true]
    unfold Join
    simp only [hmeta]
  · intro mac ip gw p hmeta hip
    unfold Join
    simp only [hmeta, hip]
  · intro mac ip gw ls q hmeta hip hls hport
    unfold Join
    simp only [hmeta, hip, hls, hport]

theorem join_checks_block_mutation_witness :
    (findLogicalSwitch fixtureDBNoMeta (switchNameOf netA) = some fixtureLSNoMeta
      ∧ mapGet fixtureLSNoMeta.otherConfig (endpointOtherConfigKey epA "mac") = ""
      ∧ Join "br-int" fixtureDBNoMeta ⟨true, true, true, true⟩ epA netA
        = ⟨.error ("endpoint metadata not found in logical switch " ++ switchNameOf netA),
           fixtureDBNoMeta, [], []⟩)
    ∧ (findLogicalSwitchPortByIP fixtureDBConflict (switchNameOf netA) "172.16.0.5"
        = some fixtureConflictPort
      ∧ Join "br-int" fixtureDBConflict ⟨true, true, true, true⟩ epA netA
        = ⟨.error ("IP address " ++ "172.16.0.5" ++ " already in use on logical switch "
                   ++ switchNameOf netA ++ " by port " ++ fixtureConflictPort.name),
           fixtureDBConflict, [], []⟩)
    ∧ (findLogicalSwitchPort fixtureDBPortExists (portNameOf epA netA)
        = some ⟨"uuid-p1", portNameOf epA netA, [], [], none, "", [], []⟩
      ∧ Join "br-int" fixtureDBPortExists ⟨true, true, true, true⟩ epA netA
        = ⟨.error ("logical switch port " ++ portNameOf epA netA ++ " already exists"),
           fixtureDBPortExists, [], []⟩) :=
  ⟨⟨by decide, by decide,
    (join_checks_block_mutation "br-int" fixtureDBNoMeta ⟨true, true, true, true⟩ epA netA).1
      fixtureLSNoMeta (by decide) (Or.inl (by decide))⟩,
   ⟨by decide,
    (join_checks_block_mutation "br-int" fixtureDBConflict ⟨true, true, true, true⟩ epA netA).2.1
      "02:65:70:31:62:62" "172.16.0.5" "172.16.0.1" fixtureConflictPort (by decide) (by decide)⟩,
   ⟨by decide,
    (join_checks_block_mutation "br-int" fixtureDBPortExists ⟨true, true, true, true⟩ epA
        netA).2.2
      "02:65:70:31:62:62" "172.16.0.5" "172.16.0.1" fixtureLS
      ⟨"uuid-p1", portNameOf epA netA, [], [], none, "", [], []⟩ (by decide) (by decide)
      (by decide) (by decide)⟩⟩

theorem findLSP_after_joinTxn (db : OVNState) (ep net mac ip u : String)
    (hport : findLogicalSwitchPort db (portNameOf ep net) = none) :
    findLogicalSwitchPort (applyTxn db (joinTxn ep net mac ip u)) (portNameOf ep net)
      = some (joinLSP ep net mac ip) := by
  have hnil : db.lsps.filter (fun p => p.name == portNameOf ep net) = [] :=
    List.head?_eq_none_iff.mp hport
  have hpos : ((joinLSP ep net mac ip).name == portNameOf ep net) = true := by
    show (portNameOf ep net == portNameOf ep net) = true
    simp
  have h2 : (db.lsps ++ [joinLSP ep net mac ip]).filter
      (fun p => p.name == portNameOf ep net) = [joinLSP ep net mac ip] := by
    rw [List.filter_append, hnil, List.nil_append,
        @List.filter_cons_of_pos _ (fun p => p.name == portNameOf ep net)
          (joinLSP ep net mac ip) [] hpos,
        List.filter_nil]
  show ((db.lsps ++ [joinLSP ep net mac ip]).filter _).head? = _
  rw [h2]
  rfl

/-- C4: once the database batch has committed, a failure of any host wiring step after
veth pair creation (container MAC, host link up, bridge attach) deletes the link pair
as the last issued host command and returns an error, while the committed LogicalPort
stays in the database and no compensating transaction is issued. -/
theorem join_host_failure_rollback (bridge : String) (db : OVNState) (henv : HostEnv)
    (ep net mac ip gw : String) (ls : LogicalSwitch)
    (hmeta : getEndpointMetadata db (switchNameOf net) ep = .ok (mac, ip, gw))
    (hip : findLogicalSwitchPortByIP db (switchNameOf net) ip = none)
    (hls : findLogicalSwitch db (switchNameOf net) = some ls)
    (hport : findLogicalSwitchPort db (portNameOf ep net) = none)
    (hveth : henv.createVethOk = true)
    (hfail : henv.setMacOk = false ∨ henv.linkUpOk = false ∨ henv.addPortOk = false) :
    (∃ e, (Join bridge db henv ep net).res = .error e)
    ∧ (Join bridge db henv ep net).host.getLast? = some (HostCmd.linkDel (localVethNameOf ep))
    ∧ findLogicalSwitchPort (Join bridge db henv ep net).db (portNameOf ep net)
        = some (joinLSP ep net mac ip)
    ∧ (Join bridge db henv ep net).txns = [joinTxn ep net mac ip ls.uuid] := by
  obtain ⟨cv, sm, lu, ap⟩ := henv
  have hcv : cv = true := hveth
  subst hcv
  have hred := join_reduction bridge db ⟨true, sm, lu, ap⟩ ep net mac ip gw ls
    hmeta hip hls hport
  refine ⟨?_, ?_, ?_, ?_⟩
  · rcases hfail with hf | hf | hf
    · have h : sm = false := hf
      subst h
      exact ⟨_, by rw [hred]; rfl⟩
    · have h : lu = false := hf
      subst h
      cases sm
      · exact ⟨_, by rw [hred]; rfl⟩
      · exact ⟨_, by rw [hred]; rfl⟩
    · have h : ap = false := hf
      subst h
      cases sm
      · exact ⟨_, by rw [hred]; rfl⟩
      · cases lu
        · exact ⟨_, by rw [hred]; rfl⟩
        · exact ⟨_, by rw [hred]; rfl⟩
  · rcases hfail with hf | hf | hf
    · have h : sm = false := hf
      subst h
      rw [hred]
      rfl
    · have h : lu = false := hf
      subst h
      cases sm
      · rw [hred]
        rfl
      · rw [hred]
        rfl
    · have h : ap = false := hf
      subst h
      cases sm
      · rw [hred]
        rfl
      · cases lu
        · rw [hred]
          rfl
        · rw [hred]
          rfl
  · rw [hred]
    exact findLSP_after_joinTxn db ep net mac ip ls.uuid hport
  · rw [hred]

theorem join_host_failure_rollback_witness :
    getEndpointMetadata fixtureDB (switchNameOf netA) epA
      = .ok ("02:65:70:31:62:62", "172.16.0.5", "172.16.0.1")
    ∧ ((⟨true, true, true, false⟩ : HostEnv).createVethOk = true
      ∧ (⟨true, true, true, false⟩ : HostEnv).addPortOk = false)
    ∧ (Join "br-int" fixtureDB ⟨true, true, true, false⟩ epA netA).host.getLast?
      = some (HostCmd.linkDel (localVethNameOf epA))
    ∧ findLogicalSwitchPort (Join "br-int" fixtureDB ⟨true, true, true, false⟩ epA netA).db
        (portNameOf epA netA) = some (joinLSP epA netA "02:65:70:31:62:62" "172.16.0.5") :=
  ⟨by decide, ⟨by decide, by decide⟩,
   (join_host_failure_rollback "br-int" fixtureDB ⟨true, true, true, false⟩ epA netA
      "02:65:70:31:62:62" "172.16.0.5" "172.16.0.1" fixtureLS (by decide) (by decide)
      (by decide) (by decide) (by decide) (Or.inr (Or.inr (by decide)))).2.1,
   (join_host_failure_rollback "br-int" fixtureDB ⟨true, true, true, false⟩ epA netA
      "02:65:70:31:62:62" "172.16.0.5" "172.16.0.1" fixtureLS (by decide) (by decide)
      (by decide) (by decide) (by decide) (Or.inr (Or.inr (by decide)))).2.2.1⟩

/-- C8: end-to-end address normalization on the concrete scenario: CreateNetwork
stores the gateway with its CIDR suffix stripped, CreateEndpoint stores the bare IP
and returns the MAC generated from the endpoint id bytes, and Join creates a port
whose addresses string is the MAC followed by the bare IP and answers with the stored
bare gateway. -/
theorem scenario_address_normalization :
    scenarioStep1.1 = .ok ()
    ∧ mapGet ((findLogicalSwitch scenarioDB1 (switchNameOf netA)).getD emptyLS).otherConfig
        "docker:gateway" = "172.16.0.1"
    ∧ scenarioStep2.1 = .ok "02:65:70:31:62:62"
    ∧ mapGet ((findLogicalSwitch scenarioDB2 (switchNameOf netA)).getD emptyLS).otherConfig
        (endpointOtherConfigKey epA "ip") = "172.16.0.5"
    ∧ ((findLogicalSwitchPort scenarioJoin.db (portNameOf epA netA)).getD emptyLSP).addresses
      = ["02:65:70:31:62:62 172.16.0.5"]
    ∧ scenarioJoin.res = .ok ⟨"vethep1bbbb_c", "eth", "172.16.0.1"⟩ := by
  decide

end OVN
